import Mathlib

/-!
Verification of the session-and-authorization core of alx-polly.

Shallow embedding of:
- the server auth actions (`login`, `register`, `logout`, `getCurrentUser`,
  `getSession`) from the auth-actions module, parameterized by the external
  Supabase adapter's responses;
- the LoginPage submit flow (its `loading`/`error` state, the pending
  Auth Action call, and the navigation it performs) as a step function on
  an explicit flow state;
- the ownership guard and the delete handler of `PollActions.tsx`.
-/

namespace AlxPolly

/-! ### Data model -/

/-- Modelled from the spec: `Credentials` `{email, password}` (the source imports
`LoginFormData` from a types module that is not included in the sources). -/
structure LoginFormData where
  email : String
  password : String
deriving Repr, DecidableEq

/-- Modelled from the spec: `RegistrationData` — credentials plus a display `name`
(the source imports `RegisterFormData` from a types module that is not included). -/
structure RegisterFormData where
  name : String
  email : String
  password : String
deriving Repr, DecidableEq

/-- The uniform result shape `{error: string | null}` returned by the auth actions. -/
structure AuthResult where
  error : Option String
deriving Repr, DecidableEq

/-- The profile metadata record `{ name }` passed as `options.data` to
`supabase.auth.signUp` by `register`. -/
structure SignUpMetadata where
  name : String
deriving Repr, DecidableEq

/-- The argument record of `supabase.auth.signUp` as built by `register`:
`{ email, password, options: { data: metadata } }`. -/
structure SignUpParams where
  email : String
  password : String
  metadata : Option SignUpMetadata
deriving Repr, DecidableEq

/-- The user record owned by the credential backend: `id`, `email`, and the
profile metadata attached at account creation. -/
structure UserRecord where
  id : String
  email : String
  meta : Option SignUpMetadata
deriving Repr, DecidableEq

/-- A session as observed through the adapter: an opaque token and its user. -/
structure Session where
  token : String
  user : UserRecord
deriving Repr, DecidableEq

/-- An adapter error: carries a human-readable `message`. -/
structure AuthError where
  message : String
deriving Repr, DecidableEq

/-- The `supabase.auth` surface the auth actions call. The adapter is an opaque
external collaborator, so each field records the response it gives to one call:
the `error` field of the response for the mutating calls, and the `data.user` /
`data.session` fields for the two reads. -/
structure SupabaseAuth where
  signInWithPassword : LoginFormData → Option AuthError
  signUp : SignUpParams → Option AuthError
  signOut : Option AuthError
  getUser : Option UserRecord
  getSession : Option Session

/-! ### Auth Action Layer (src/unnamed/part_001) -/

/-- `login` from the auth actions: calls `supabase.auth.signInWithPassword` with
`{ email: data.email, password: data.password }`; if the response has an error it
returns `{ error: error.message }`, otherwise `{ error: null }`. -/
def login (supabase : SupabaseAuth) (data : LoginFormData) : AuthResult :=
  match supabase.signInWithPassword { email := data.email, password := data.password } with
  | some e => { error := some e.message }
  | none => { error := none }

/-- One call to the credential backend adapter. `updateUser` is the follow-up
profile write the adapter surface would offer; the source never issues it. -/
inductive AdapterCall where
  | signInWithPassword (data : LoginFormData)
  | signUp (params : SignUpParams)
  | updateUser (meta : SignUpMetadata)
  | signOut
  | getUser
  | getSession
deriving Repr, DecidableEq

/-- The sign-up argument record `register` builds:
`{ email: data.email, password: data.password, options: { data: { name: data.name } } }`. -/
def registerParams (data : RegisterFormData) : SignUpParams :=
  { email := data.email, password := data.password, metadata := some { name := data.name } }

/-- `register` from the auth actions, together with the list of adapter calls it
issues: exactly one `signUp`, whose argument carries the display name as profile
metadata; on an error response the message is passed through, else `{error: null}`. -/
def register (supabase : SupabaseAuth) (data : RegisterFormData) :
    AuthResult × List AdapterCall :=
  let params := registerParams data
  match supabase.signUp params with
  | some e => ({ error := some e.message }, [AdapterCall.signUp params])
  | none => ({ error := none }, [AdapterCall.signUp params])

/-- `logout` from the auth actions: calls `supabase.auth.signOut`; if the
response has an error it returns `{ error: error.message }`, else `{ error: null }`. -/
def logout (supabase : SupabaseAuth) : AuthResult :=
  match supabase.signOut with
  | some e => { error := some e.message }
  | none => { error := none }

/-- `getCurrentUser` from the auth actions: returns `data.user` of the adapter's
`getUser` response, unchanged. -/
def getCurrentUser (supabase : SupabaseAuth) : Option UserRecord :=
  supabase.getUser

/-- `getSession` from the auth actions: returns `data.session` of the adapter's
`getSession` response, unchanged. -/
def getSession (supabase : SupabaseAuth) : Option Session :=
  supabase.getSession

/-! ### A stateful model of the external adapter

The adapter itself (Supabase) is outside the sources; the spec treats it as a
black box with a current session. The definitions below model its observable
behaviour from the spec, to settle the claims that talk about the adapter's
session state (idempotent logout, pure reads). -/

/-- Modelled from the spec: the black-box adapter's observable state — whether a
current session exists, plus a possible transport/provider fault the next call
would report (the spec's only source of adapter-level failure). -/
structure AdapterState where
  session : Option Session
  fault : Option AuthError
deriving Repr, DecidableEq

/-- Modelled from the spec: adapter sign-out clears the server-tracked session and
succeeds unless a provider fault is present; the mere absence of a session is not
a failure (spec: idempotence of `logout`). -/
def adapterSignOut (st : AdapterState) : Option AuthError × AdapterState :=
  match st.fault with
  | some e => (some e, st)
  | none => (none, { st with session := none })

/-- Modelled from the spec: adapter current-user lookup — a pure read returning
the session's user, null when no session exists, leaving the state unchanged. -/
def adapterGetUser (st : AdapterState) : Option UserRecord × AdapterState :=
  (st.session.map (fun s => s.user), st)

/-- Modelled from the spec: adapter current-session lookup — a pure read
returning the current session (null when none), leaving the state unchanged. -/
def adapterGetSession (st : AdapterState) : Option Session × AdapterState :=
  (st.session, st)

/-- Modelled from the spec: the adapter's sign-up creates the user record with
the profile metadata given in that same call attached at creation time; no other
call writes it. -/
def adapterCreateUser (id : String) (params : SignUpParams) : UserRecord :=
  { id := id, email := params.email, meta := params.metadata }

/-- The `supabase.auth` responses an adapter in state `st` gives. The
credential-checking calls fail only on a provider fault here; they are not at
issue in the stateful claims. -/
def specClient (st : AdapterState) : SupabaseAuth :=
  { signInWithPassword := fun _ => st.fault
    signUp := fun _ => st.fault
    signOut := (adapterSignOut st).1
    getUser := (adapterGetUser st).1
    getSession := (adapterGetSession st).1 }

/-- The adapter state after the single `signOut` call `logout` issues. -/
def logoutState (st : AdapterState) : AdapterState :=
  (adapterSignOut st).2

/-- The adapter state after the single `getUser` call `getCurrentUser` issues. -/
def getCurrentUserState (st : AdapterState) : AdapterState :=
  (adapterGetUser st).2

/-- The adapter state after the single `getSession` call `getSession` issues. -/
def getSessionState (st : AdapterState) : AdapterState :=
  (adapterGetSession st).2

/-! ### Ownership guard and delete handler (PollActions.tsx) -/

/-- The `Poll` interface of `PollActions.tsx`: `{ id, question, options: any[],
user_id }`; the element type of `options` is unconstrained in the source. -/
structure Poll (α : Type) where
  id : String
  question : String
  options : List α
  user_id : String

/-- The ownership guard gating the edit/delete controls in `PollActions.tsx`:
the rendered condition `user && user.id === poll.user_id`. The spec names the
owner field `owner_id`; in the source it is `user_id`. -/
def canModify {α : Type} (user : Option UserRecord) (poll : Poll α) : Bool :=
  match user with
  | none => false
  | some u => u.id == poll.user_id

/-- One effect `handleDelete` in `PollActions.tsx` can perform. -/
inductive DeleteAction where
  | deletePoll (id : String)
  | reload
deriving Repr, DecidableEq

/-- `handleDelete` from `PollActions.tsx`: asks `confirm("Are you sure you want
to delete this poll?")`; only on a `true` answer does it call `deletePoll(poll.id)`
and then `window.location.reload()`. `confirmAnswer` is the user's answer to the
blocking prompt; the returned list is the sequence of effects performed. -/
def handleDelete (pollId : String) (confirmAnswer : Bool) : List DeleteAction :=
  if confirmAnswer then [DeleteAction.deletePoll pollId, DeleteAction.reload] else []

/-! ### Login flow state machine (src/unnamed/part_000) -/

/-- Whether a performed navigation is a full page load or a soft client-side
route change. The source's `window.location.href = "/polls"` is a full load. -/
inductive Navigation where
  | full (path : String)
  | soft (path : String)
deriving Repr, DecidableEq

/-- The client-visible state of the LoginPage flow: the React state `loading`
and `error`, plus the observables needed to reason about the flow — the
in-flight Auth Action call (`pending`), the navigation performed so far, and
how many Auth Action invocations have occurred. -/
structure FlowState where
  loading : Bool
  error : Option String
  pending : Option LoginFormData
  navigation : Option Navigation
  invocations : Nat
deriving Repr, DecidableEq

/-- The initial flow state: `useState<string | null>(null)` for `error`,
`useState(false)` for `loading`; nothing pending, no navigation yet. -/
def initialFlow : FlowState :=
  { loading := false, error := none, pending := none, navigation := none, invocations := 0 }

/-- An event the flow reacts to: the user submitting the form, or the pending
`login` call resolving with its result. -/
inductive FlowEvent where
  | submit (data : LoginFormData)
  | resolve (result : AuthResult)
deriving Repr, DecidableEq

/-- One step of the LoginPage flow. A submit event reaches `handleSubmit` only
through the form whose sole submit control is rendered with `disabled={loading}`;
a disabled submit control dispatches no submit event, so while `loading` the
event is a no-op. Otherwise `handleSubmit` runs: `setLoading(true)`,
`setError(null)`, and it invokes `login` — the call becomes pending and the
invocation count grows by one. When the pending call resolves: on a non-null
`result.error`, `setError(result.error)` then `setLoading(false)`; on a null
error, `window.location.href = "/polls"` (a full navigation), with `loading`
never reset. -/
def flowStep (s : FlowState) (e : FlowEvent) : FlowState :=
  match e with
  | FlowEvent.submit data =>
      if s.loading then s
      else { s with loading := true, error := none, pending := some data,
                    invocations := s.invocations + 1 }
  | FlowEvent.resolve r =>
      match s.pending with
      | none => s
      | some _ =>
          match r.error with
          | some m => { s with error := some m, loading := false, pending := none }
          | none => { s with pending := none, navigation := some (Navigation.full "/polls") }

/-! ### Helper lemmas on the flow -/

/-- While `loading`, a submit event leaves the flow state unchanged. -/
theorem flowStep_submit_of_loading (s : FlowState) (d : LoginFormData)
    (h : s.loading = true) : flowStep s (FlowEvent.submit d) = s := by
  simp [flowStep, h]

/-- With `loading` set and no pending call, every event leaves the state
unchanged. -/
theorem flowStep_stuck (s : FlowState) (e : FlowEvent) (hl : s.loading = true)
    (hp : s.pending = none) : flowStep s e = s := by
  cases e with
  | submit d => simp [flowStep, hl]
  | resolve r => simp [flowStep, hp]

/-- Folding any events over a stuck state keeps it unchanged. -/
theorem foldl_flowStep_stuck (es : List FlowEvent) : ∀ s : FlowState,
    s.loading = true → s.pending = none → es.foldl flowStep s = s := by
  induction es with
  | nil => intro s _ _; rfl
  | cons e rest ih =>
      intro s hl hp
      rw [List.foldl_cons, flowStep_stuck s e hl hp]
      exact ih s hl hp

/-- Folding submit events over a loading state keeps it unchanged. -/
theorem foldl_flowStep_submits (es : List FlowEvent) : ∀ s : FlowState,
    s.loading = true → (∀ e ∈ es, ∃ d, e = FlowEvent.submit d) →
    es.foldl flowStep s = s := by
  induction es with
  | nil => intro s _ _; rfl
  | cons e rest ih =>
      intro s hl hes
      obtain ⟨d, rfl⟩ := hes e (by simp)
      rw [List.foldl_cons, flowStep_submit_of_loading s d hl]
      exact ih s hl (fun e2 he2 => hes e2 (by simp [he2]))

/-! ### Claims -/

/-- C1: the ownership guard is exhaustive over its three cases — `canModify` is
false when the user is null, false when the user's id differs from the poll's
owner id, and true exactly when the user is non-null and the ids agree. -/
theorem canModify_exhaustive {α : Type} (user : Option UserRecord) (poll : Poll α) :
    (user = none → canModify user poll = false) ∧
    (∀ u, user = some u → u.id ≠ poll.user_id → canModify user poll = false) ∧
    (canModify user poll = true ↔ ∃ u, user = some u ∧ u.id = poll.user_id) := by
  refine ⟨?_, ?_, ?_⟩
  · rintro rfl; rfl
  · rintro u rfl hne
    simpa [canModify] using hne
  · cases user with
    | none => simp [canModify]
    | some u => simp [canModify]

/-- C2: `login` returns exactly the adapter's error message, unmodified, when the
password sign-in fails; `{error: null}` when it succeeds; and its result is never
in any other state. -/
theorem login_error_passthrough :
    ∀ (supabase : SupabaseAuth) (data : LoginFormData),
      (∀ e, supabase.signInWithPassword { email := data.email, password := data.password } = some e →
        login supabase data = { error := some e.message }) ∧
      (supabase.signInWithPassword { email := data.email, password := data.password } = none →
        login supabase data = { error := none }) ∧
      (login supabase data = { error := none } ∨
        ∃ e, supabase.signInWithPassword { email := data.email, password := data.password } = some e ∧
          login supabase data = { error := some e.message }) := by
  intro supabase data
  cases h : supabase.signInWithPassword { email := data.email, password := data.password } with
  | none =>
      refine ⟨?_, ?_, ?_⟩
      · intro e he; exact absurd he (by simp)
      · intro _; simp [login, h]
      · exact Or.inl (by simp [login, h])
  | some e =>
      have hl : login supabase data = { error := some e.message } := by simp [login, h]
      refine ⟨?_, ?_, Or.inr ⟨e, rfl, hl⟩⟩
      · intro e2 he2
        injection he2 with hee
        subst hee
        exact hl
      · intro hn; exact absurd hn (by simp)

/-- C3: while a submit is pending (`loading` true), further submit events before
the call resolves cause no further Auth Action invocation — a double (or any
repeated) submit performs exactly one invocation. -/
theorem submit_reentry_guard (s : FlowState) (d : LoginFormData) (es : List FlowEvent)
    (hl : s.loading = false)
    (hes : ∀ e ∈ es, ∃ d2, e = FlowEvent.submit d2) :
    (es.foldl flowStep (flowStep s (FlowEvent.submit d))).invocations = s.invocations + 1 := by
  have h1 : flowStep s (FlowEvent.submit d) =
      { s with loading := true, error := none, pending := some d,
               invocations := s.invocations + 1 } := by
    simp [flowStep, hl]
  rw [h1, foldl_flowStep_submits es _ rfl hes]

/-- C3 witness: a concrete double submit from the initial state performs exactly
one Auth Action invocation. -/
theorem submit_reentry_guard_witness :
    (([FlowEvent.submit { email := "a@x.com", password := "other" }]).foldl flowStep
      (flowStep initialFlow
        (FlowEvent.submit { email := "a@x.com", password := "secret" }))).invocations
      = initialFlow.invocations + 1 :=
  submit_reentry_guard initialFlow { email := "a@x.com", password := "secret" }
    [FlowEvent.submit { email := "a@x.com", password := "other" }] rfl
    (fun e he => ⟨{ email := "a@x.com", password := "other" }, List.mem_singleton.mp he⟩)

/-- C4: when the pending Auth Action resolves with `{error: null}`, the flow
performs a full (non-soft) navigation to the fixed path "/polls"; when it
resolves with a non-null error, no navigation is performed. -/
theorem success_full_navigation (s : FlowState) (d : LoginFormData)
    (hp : s.pending = some d) :
    (flowStep s (FlowEvent.resolve { error := none })).navigation
        = some (Navigation.full "/polls") ∧
    ∀ m, (flowStep s (FlowEvent.resolve { error := some m })).navigation = s.navigation := by
  constructor
  · simp [flowStep, hp]
  · intro m; simp [flowStep, hp]

/-- C4 witness: a concrete successful resolution navigates (fully) to "/polls". -/
theorem success_full_navigation_witness :
    (flowStep (flowStep initialFlow (FlowEvent.submit { email := "a@x.com", password := "secret" }))
        (FlowEvent.resolve { error := none })).navigation = some (Navigation.full "/polls") :=
  (success_full_navigation _ { email := "a@x.com", password := "secret" } rfl).1

/-- C5: when the pending Auth Action resolves with a non-null message, the flow
enters the failed state with the stored error exactly that message, and
`loading` is reset to false so the form is re-enabled. -/
theorem failure_verbatim_and_reenabled (s : FlowState) (d : LoginFormData) (m : String)
    (hp : s.pending = some d) :
    (flowStep s (FlowEvent.resolve { error := some m })).error = some m ∧
    (flowStep s (FlowEvent.resolve { error := some m })).loading = false := by
  constructor <;> simp [flowStep, hp]

/-- C5 witness: the spec's scenario — a rejection with message
"Invalid login credentials" is displayed verbatim. -/
theorem failure_verbatim_and_reenabled_witness :
    (flowStep (flowStep initialFlow (FlowEvent.submit { email := "a@x.com", password := "wrong" }))
        (FlowEvent.resolve { error := some "Invalid login credentials" })).error
      = some "Invalid login credentials" :=
  (failure_verbatim_and_reenabled _ { email := "a@x.com", password := "wrong" }
    "Invalid login credentials" rfl).1

/-- C6: `register` issues exactly one adapter call — a single `signUp` whose
argument carries the display name as profile metadata attached at creation —
and never a follow-up profile write; on the record the adapter creates from
that call, the name is retrievable without any additional update call. -/
theorem register_atomic_metadata :
    ∀ (supabase : SupabaseAuth) (data : RegisterFormData),
      (register supabase data).2 = [AdapterCall.signUp (registerParams data)] ∧
      (∀ m, AdapterCall.updateUser m ∉ (register supabase data).2) ∧
      (registerParams data).metadata = some { name := data.name } ∧
      (∀ id, (adapterCreateUser id (registerParams data)).meta = some { name := data.name }) := by
  intro supabase data
  refine ⟨?_, ?_, rfl, fun id => rfl⟩
  · cases h : supabase.signUp (registerParams data) <;> simp [register, h]
  · intro m
    cases h : supabase.signUp (registerParams data) <;> simp [register, h]

/-- C7: `logout` returns `{error: null}` exactly when the adapter's sign-out
succeeds and passes the adapter's message through otherwise; against the
spec-modelled adapter, calling it with no current session (and no provider
fault) returns `{error: null}` rather than failing. -/
theorem logout_result_and_idempotence :
    (∀ supabase : SupabaseAuth, logout supabase = { error := none } ↔ supabase.signOut = none) ∧
    (∀ (supabase : SupabaseAuth) (e : AuthError),
      supabase.signOut = some e → logout supabase = { error := some e.message }) ∧
    (∀ st : AdapterState, st.session = none → st.fault = none →
      logout (specClient st) = { error := none }) := by
  refine ⟨?_, ?_, ?_⟩
  · intro supabase
    cases h : supabase.signOut <;> simp [logout, h]
  · intro supabase e h; simp [logout, h]
  · intro st hs hf
    simp [logout, specClient, adapterSignOut, hf]

/-- C8: `getCurrentUser` and `getSession` are pure reads — against the
spec-modelled adapter they return null whenever no session exists, and in every
state they leave the adapter state (hence the session) unchanged. -/
theorem getCurrentUser_getSession_pure (st : AdapterState) :
    (st.session = none → getCurrentUser (specClient st) = none) ∧
    (st.session = none → getSession (specClient st) = none) ∧
    getCurrentUserState st = st ∧ getSessionState st = st := by
  refine ⟨?_, ?_, rfl, rfl⟩
  · intro h; simp [getCurrentUser, specClient, adapterGetUser, h]
  · intro h; simp [AlxPolly.getSession, specClient, adapterGetSession, h]

/-- C9: the delete action requires the blocking confirmation — `deletePoll`
appears in the effect sequence only when the prompt answered true, and on a
false answer neither the deletion nor the page reload occurs. -/
theorem delete_requires_confirmation :
    ∀ (pollId : String) (ans : Bool),
      (DeleteAction.deletePoll pollId ∈ handleDelete pollId ans → ans = true) ∧
      (ans = false → handleDelete pollId ans = []) ∧
      (ans = true →
        handleDelete pollId ans = [DeleteAction.deletePoll pollId, DeleteAction.reload]) := by
  intro pollId ans
  cases ans <;> simp [handleDelete]

/-- C10: after the Auth Action resolves with `{error: null}`, `loading` is never
reset — under every later event sequence the submit control stays disabled;
only the error branch resets `loading` to false. -/
theorem success_keeps_loading (s : FlowState) (d : LoginFormData) (es : List FlowEvent)
    (hl : s.loading = true) (hp : s.pending = some d) :
    (es.foldl flowStep (flowStep s (FlowEvent.resolve { error := none }))).loading = true ∧
    ∀ m, (flowStep s (FlowEvent.resolve { error := some m })).loading = false := by
  constructor
  · have h1 : flowStep s (FlowEvent.resolve { error := none }) =
        { s with pending := none, navigation := some (Navigation.full "/polls") } := by
      simp [flowStep, hp]
    rw [h1, foldl_flowStep_stuck es
      { s with pending := none, navigation := some (Navigation.full "/polls") } hl rfl]
    exact hl
  · intro m; simp [flowStep, hp]

/-- C10 witness: after a concrete successful resolution, later submit and
resolve events leave the submit control disabled. -/
theorem success_keeps_loading_witness :
    (([FlowEvent.submit { email := "b@x.com", password := "again" },
       FlowEvent.resolve { error := some "late" }]).foldl flowStep
      (flowStep (flowStep initialFlow (FlowEvent.submit { email := "a@x.com", password := "secret" }))
        (FlowEvent.resolve { error := none }))).loading = true :=
  (success_keeps_loading _ { email := "a@x.com", password := "secret" } _ rfl rfl).1

end AlxPolly
